import Mathlib

/-!
Shallow embedding of the URL-shortener core in `src/app.py`.

Modelling conventions:
- Timestamps are integers measured in days; `datetime.now()` is passed in
  explicitly as a parameter `now`, and `timedelta(days=d)` is the integer `d`.
- The SQLite table `links` is a `Store`: a list of `Link` rows (in insertion
  order) plus the next AUTOINCREMENT id.  `SELECT ... WHERE short_code = ?`
  with `fetchone()` is `List.find?` (first matching row); `INSERT` appends.
- Randomness in `generate_short_code` is passed in as an explicit stream of
  choices (indices into the character list `chars`).
- The unbounded `while True` candidate loop in `shorten_url` is given fuel;
  running out of fuel is a distinct outcome (`genExhausted`) never reached in
  the theorems below.
- Python truthiness on optional strings (`if not original_url`, `if
  custom_code`) is `pyTruthyStr`; truthiness on the optional day count
  (`if days`) treats both `None` and `0` as falsy, exactly as Python does.
- An exception raised outside the `try` block (the `int(...)` TTL parse on
  line 69) is the outcome `ShortenOutcome.exn`: the request fails before the
  handler that produces the 500 (`storageError`) response is entered.
-/

/-- Python `string.ascii_letters`. -/
def ascii_letters : List Char :=
  "abcdefghijklmnopqrstuvwxyzABCDEFGHIJKLMNOPQRSTUVWXYZ".data

/-- Python `string.digits`. -/
def asciiDigits : List Char := "0123456789".data

/-- Line 43 of `app.py`: `chars = string.ascii_letters + string.digits`. -/
def codeChars : List Char := ascii_letters ++ asciiDigits

/-- Lines 42-44 of `app.py`: `generate_short_code(length)` builds a string of
`len` characters from `codeChars`; the random draws of `random.choice` are the
explicit stream `choice`. -/
def generate_short_code (choice : Nat → Fin codeChars.length) (len : Nat) : String :=
  String.mk ((List.range len).map (fun i => codeChars.get (choice i)))

/-- One row of the `links` table (schema at lines 29-38 of `app.py`). -/
structure Link where
  id : Nat
  original_url : String
  short_code : String
  created_at : Int
  expires_at : Option Int
  visit_count : Nat
deriving DecidableEq

/-- The `links` table: rows in insertion order plus the next AUTOINCREMENT id. -/
structure Store where
  links : List Link
  nextId : Nat
deriving DecidableEq

/-- The query `SELECT ... FROM links WHERE short_code = ?` with `fetchone()`:
the first row whose `short_code` equals `code`. -/
def findCodeL (ls : List Link) (code : String) : Option Link :=
  ls.find? (fun l => l.short_code == code)

/-- Same lookup on a `Store`. -/
def findCode (st : Store) (code : String) : Option Link :=
  findCodeL st.links code

/-- Python truthiness of an optional string: `None` and `""` are falsy. -/
def pyTruthyStr : Option String → Bool
  | none => false
  | some s => !(s == "")

/-- Value of a string of decimal digits (most significant first). -/
def digitsVal (ds : List Char) : Nat :=
  ds.foldl (fun n c => 10 * n + (c.toNat - 48)) 0

/-- Parse a non-empty all-digit character list as an integer; `none` models
`int()` raising `ValueError`. -/
def parseDigitsInt (ds : List Char) : Option Int :=
  if ds ≠ [] ∧ ds.all Char.isDigit then some (digitsVal ds) else none

/-- Python `int(s)` on a string: an optional sign followed by digits;
`none` models a raised `ValueError`. -/
def pyInt (s : String) : Option Int :=
  match s.data with
  | [] => none
  | c :: rest =>
    if c = '-' then (parseDigitsInt rest).map (fun n => -n)
    else if c = '+' then parseDigitsInt rest
    else parseDigitsInt (c :: rest)

/-- Python `expires_in.replace('d', '')`: removes every `'d'` character. -/
def stripD (s : String) : String :=
  String.mk (s.data.filter (fun c => c != 'd'))

/-- Line 69 of `app.py`:
`days = int(expires_in.replace('d', '')) if expires_in != 'never' else None`.
The outer `none` models the unhandled `ValueError` from `int(...)`. -/
def parseTtlDays (expires_in : String) : Option (Option Int) :=
  if expires_in = "never" then some none
  else (pyInt (stripD expires_in)).map some

/-- Line 70 of `app.py`:
`expires_at = datetime.now() + timedelta(days=days) if days else None`.
Note the Python truthiness test: `days = 0` is falsy, hence `None`. -/
def ttlExpiresAt (days : Option Int) (now : Int) : Option Int :=
  match days with
  | some d => if d = 0 then none else some (now + d)
  | none => none

/-- Lines 69-70 composed: the TTL string resolved to an expiry timestamp.
Outer `none` = unhandled exception during parsing. -/
def resolveTtl (expires_in : String) (now : Int) : Option (Option Int) :=
  (parseTtlDays expires_in).map (fun d => ttlExpiresAt d now)

/-- A `POST /api/shorten` JSON body: `{url, custom?, expires?}`; `url` is also
optional at the wire level (`data.get('url')`). -/
structure ShortenRequest where
  url : Option String
  custom : Option String
  expires : Option String
deriving DecidableEq

/-- Outcome of `shorten_url`.  `ok` is the 200 response, `urlRequired` the
400, `conflict` the 409, `storageError` the 500 produced by the `except`
handler, `exn` an exception raised before the `try` block is entered (never
converted into an HTTP response by the handler), and `genExhausted` the
model's fuel bound on the unbounded candidate loop. -/
inductive ShortenOutcome where
  | ok (short_url short_code : String) (expires_at : Option Int)
  | urlRequired
  | conflict
  | storageError
  | exn
  | genExhausted
deriving DecidableEq

/-- Lines 85-89 of `app.py`: generate candidates until one is unused.
`cands i` is the candidate produced by the `i`-th call of
`generate_short_code`; `fuel` bounds the unbounded loop. -/
def genLoop (cands : Nat → String) (st : Store) (i : Nat) : Nat → Option String
  | 0 => none
  | fuel + 1 =>
    let c := cands i
    if (findCode st c).isSome then genLoop cands st (i + 1) fuel else some c

/-- The row inserted at lines 92-95 of `app.py`: `visit_count` defaults to 0,
`created_at` to the current time, `id` to the next AUTOINCREMENT value. -/
def mkLink (st : Store) (original_url short_code : String) (now : Int)
    (expires_at : Option Int) : Link :=
  { id := st.nextId, original_url := original_url, short_code := short_code,
    created_at := now, expires_at := expires_at, visit_count := 0 }

/-- The `INSERT` plus `commit`: append the row, bump the id counter. -/
def insertLink (st : Store) (l : Link) : Store :=
  { links := st.links ++ [l], nextId := st.nextId + 1 }

/-- Lines 57-110 of `app.py`: the `POST /api/shorten` handler. -/
def shorten_url (domain : String) (now : Int) (cands : Nat → String)
    (fuel : Nat) (req : ShortenRequest) (st : Store) : Store × ShortenOutcome :=
  if !(pyTruthyStr req.url) then (st, ShortenOutcome.urlRequired)
  else
    match parseTtlDays ((req.expires).getD "30d") with
    | none => (st, ShortenOutcome.exn)
    | some days =>
      let expires_at := ttlExpiresAt days now
      let original_url := (req.url).getD ""
      let chosen : ShortenOutcome ⊕ String :=
        if pyTruthyStr req.custom then
          let c := (req.custom).getD ""
          if (findCode st c).isSome then Sum.inl ShortenOutcome.conflict
          else Sum.inr c
        else
          match genLoop cands st 0 fuel with
          | none => Sum.inl ShortenOutcome.genExhausted
          | some c => Sum.inr c
      match chosen with
      | Sum.inl e => (st, e)
      | Sum.inr short_code =>
        (insertLink st (mkLink st original_url short_code now expires_at),
         ShortenOutcome.ok ("https://" ++ domain ++ "/" ++ short_code)
           short_code expires_at)

/-- The `SELECT` at lines 120-124 of `app.py` (first primitive of `resolve`). -/
def resolveRead (st : Store) (short_code : String) : Option Link :=
  findCode st short_code

/-- The `UPDATE` at lines 134-137 of `app.py` (second primitive of `resolve`):
`UPDATE links SET visit_count = ? WHERE short_code = ?`, where the parameter
is `link['visit_count'] + 1` computed from the earlier read.  Note the stored
value is the value that was read plus one, not a store-level increment. -/
def resolveWrite (st : Store) (short_code : String) (newCount : Nat) : Store :=
  { st with links := st.links.map (fun l =>
      if l.short_code == short_code then { l with visit_count := newCount } else l) }

/-- Outcome of `redirect_to_original`: `ok` is the 302 response with the
`{redirect: original_url}` body, `notFound` the 404, `expired` the 410. -/
inductive RedirectOutcome where
  | ok (redirect : String)
  | notFound
  | expired
deriving DecidableEq

/-- Line 130 of `app.py`:
`if link['expires_at'] and datetime.fromisoformat(link['expires_at']) < datetime.now()`.
A stored expiry is a non-empty string, hence truthy; `NULL` is falsy. -/
def isExpired (expires_at : Option Int) (now : Int) : Bool :=
  match expires_at with
  | none => false
  | some e => decide (e < now)

/-- Lines 113-146 of `app.py`: the `GET /<short_code>` handler, composed from
the two store primitives `resolveRead` and `resolveWrite`. -/
def redirect_to_original (now : Int) (short_code : String) (st : Store) :
    Store × RedirectOutcome :=
  match resolveRead st short_code with
  | none => (st, RedirectOutcome.notFound)
  | some link =>
    if isExpired link.expires_at now then (st, RedirectOutcome.expired)
    else (resolveWrite st short_code (link.visit_count + 1),
          RedirectOutcome.ok link.original_url)

/-- Outcome of `get_stats`: the 200 JSON body or the 404. -/
inductive StatsOutcome where
  | ok (original_url : String) (created_at : Int) (expires_at : Option Int)
      (visit_count : Nat)
  | notFound
deriving DecidableEq

/-- Lines 149-171 of `app.py`: the `GET /api/stats/<short_code>` handler.
It runs a single `SELECT` and never writes, so the store component of the
result is the input store; it takes no `now` parameter because the code never
consults the clock. -/
def get_stats (short_code : String) (st : Store) : Store × StatsOutcome :=
  match findCode st short_code with
  | none => (st, StatsOutcome.notFound)
  | some l =>
    (st, StatsOutcome.ok l.original_url l.created_at l.expires_at l.visit_count)

/-- No two rows share a `short_code` (the UNIQUE constraint on line 33). -/
def codesUnique (st : Store) : Prop :=
  st.links.Pairwise (fun a b => a.short_code ≠ b.short_code)

/-- The visit count the store reports for a code (via the first matching row). -/
def visitCount (st : Store) (code : String) : Option Nat :=
  (findCode st code).map (fun l => l.visit_count)

/-- A one-row store used to exhibit the lost-update interleaving: one link
with code "abc", no expiry, and a visit count of 0. -/
def demoStore : Store := ⟨[⟨1, "https://example.com", "abc", 0, none, 0⟩], 2⟩

/-- Two concurrent executions of the resolver body on the same code,
interleaved as read A, read B, write A, write B.  Each execution is exactly
the `SELECT` (`resolveRead`) followed by the `UPDATE` (`resolveWrite`) with
the value it read plus one, as in lines 120-137 of `app.py`. -/
def lostUpdateRun (st : Store) (code : String) : Store :=
  match resolveRead st code, resolveRead st code with
  | some l1, some l2 =>
    resolveWrite (resolveWrite st code (l1.visit_count + 1)) code
      (l2.visit_count + 1)
  | _, _ => st

theorem findCodeL_cons (a : Link) (t : List Link) (code : String) :
    findCodeL (a :: t) code
      = if a.short_code == code then some a else findCodeL t code := by
  by_cases h : a.short_code == code <;> simp [findCodeL, List.find?_cons, h]

theorem findCodeL_append {xs : List Link} {code : String} (ys : List Link)
    (h : findCodeL xs code = none) :
    findCodeL (xs ++ ys) code = findCodeL ys code := by
  unfold findCodeL at *
  rw [List.find?_append, h, Option.none_or]

theorem findCodeL_eq_none {ls : List Link} {code : String} :
    findCodeL ls code = none ↔ ∀ l ∈ ls, l.short_code ≠ code := by
  simp [findCodeL, List.find?_eq_none]

theorem resolveWrite_short_code (code : String) (n : Nat) (l : Link) :
    (if l.short_code == code then { l with visit_count := n } else l).short_code
      = l.short_code := by
  split <;> rfl

theorem resolveWrite_not_found {st : Store} {code : String} (n : Nat)
    (h : findCode st code = none) : resolveWrite st code n = st := by
  unfold resolveWrite
  have hmem := (findCodeL_eq_none).mp h
  cases st with
  | mk ls next =>
    simp only [Store.mk.injEq, and_true]
    have hcg : ∀ l ∈ ls, (if l.short_code == code then { l with visit_count := n } else l) = id l := by
      intro l hl
      simp [hmem l hl]
    rw [List.map_congr_left hcg, List.map_id]

theorem findCode_resolveWrite_same (st : Store) (code : String) (n : Nat) :
    findCode (resolveWrite st code n) code
      = (findCode st code).map (fun l => { l with visit_count := n }) := by
  unfold findCode resolveWrite findCodeL
  rw [List.find?_map]
  have hp : ((fun l : Link => l.short_code == code) ∘
      (fun l => if l.short_code == code then { l with visit_count := n } else l))
      = (fun l : Link => l.short_code == code) := by
    funext l
    simp only [Function.comp_apply]
    rw [resolveWrite_short_code]
  rw [hp]
  cases hf : st.links.find? (fun l => l.short_code == code) with
  | none => rfl
  | some l =>
    have hl := List.find?_some hf
    simp only [beq_iff_eq] at hl
    simp [hl]

theorem findCode_resolveWrite_other {c code : String} (st : Store) (n : Nat)
    (hne : c ≠ code) :
    findCode (resolveWrite st code n) c = findCode st c := by
  unfold findCode resolveWrite findCodeL
  rw [List.find?_map]
  have hp : ((fun l : Link => l.short_code == c) ∘
      (fun l => if l.short_code == code then { l with visit_count := n } else l))
      = (fun l : Link => l.short_code == c) := by
    funext l
    simp only [Function.comp_apply]
    rw [resolveWrite_short_code]
  rw [hp]
  cases hf : st.links.find? (fun l : Link => l.short_code == c) with
  | none => rfl
  | some l =>
    have hl := List.find?_some hf
    simp only [beq_iff_eq] at hl
    simp [hl, hne]

theorem genLoop_spec {cands : Nat → String} {st : Store} {c : String} :
    ∀ {fuel i : Nat}, genLoop cands st i fuel = some c →
      findCode st c = none ∧ ∃ j, c = cands j := by
  intro fuel
  induction fuel with
  | zero => intro i h; exact absurd h (by simp [genLoop])
  | succ n ih =>
    intro i h
    unfold genLoop at h
    by_cases hf : (findCode st (cands i)).isSome
    · rw [if_pos hf] at h
      exact ih h
    · rw [if_neg hf] at h
      have hfn : findCode st (cands i) = none := by
        cases hcase : findCode st (cands i) with
        | none => rfl
        | some l => rw [hcase] at hf; simp at hf
      cases h
      exact ⟨hfn, i, rfl⟩

theorem shorten_url_ok_spec {d : String} {now : Int} {cands : Nat → String}
    {fuel : Nat} {req : ShortenRequest} {st st1 : Store} {su code : String}
    {ea : Option Int}
    (h : shorten_url d now cands fuel req st = (st1, ShortenOutcome.ok su code ea)) :
    pyTruthyStr req.url = true
    ∧ (∃ days, parseTtlDays ((req.expires).getD "30d") = some days
        ∧ ea = ttlExpiresAt days now)
    ∧ findCode st code = none
    ∧ st1 = insertLink st (mkLink st ((req.url).getD "") code now ea)
    ∧ su = "https://" ++ d ++ "/" ++ code
    ∧ (pyTruthyStr req.custom = true → code = (req.custom).getD "")
    ∧ (pyTruthyStr req.custom = false → ∃ j, code = cands j) := by
  unfold shorten_url at h
  by_cases hu : pyTruthyStr req.url
  · rw [hu] at h
    simp only [Bool.not_true, Bool.false_eq_true, if_false] at h
    cases ht : parseTtlDays ((req.expires).getD "30d") with
    | none => rw [ht] at h; simp at h
    | some days =>
      rw [ht] at h
      simp only [] at h
      by_cases hc : pyTruthyStr req.custom
      · rw [hc] at h
        simp only [if_true] at h
        by_cases hf : (findCode st ((req.custom).getD "")).isSome
        · rw [if_pos hf] at h
          simp at h
        · rw [if_neg hf] at h
          have hfn : findCode st ((req.custom).getD "") = none := by
            cases hcase : findCode st ((req.custom).getD "") with
            | none => rfl
            | some l => rw [hcase] at hf; simp at hf
          simp only [Prod.mk.injEq, ShortenOutcome.ok.injEq] at h
          obtain ⟨hst, hsu, hcode, hea⟩ := h
          subst hcode hea hst hsu
          exact ⟨hu, ⟨days, rfl, rfl⟩, hfn, rfl, rfl, fun _ => rfl, fun hcf => by rw [hcf] at hc; simp at hc⟩
      · rw [eq_false_of_ne_true hc] at h
        simp only [Bool.false_eq_true, if_false] at h
        cases hg : genLoop cands st 0 fuel with
        | none => rw [hg] at h; simp at h
        | some c =>
          rw [hg] at h
          simp only [Prod.mk.injEq, ShortenOutcome.ok.injEq] at h
          obtain ⟨hst, hsu, hcode, hea⟩ := h
          subst hcode hea hst hsu
          obtain ⟨hfn, j, hj⟩ := genLoop_spec hg
          exact ⟨hu, ⟨days, rfl, rfl⟩, hfn, rfl, rfl,
            fun hct => by rw [hct] at hc; simp at hc, fun _ => ⟨j, hj⟩⟩
  · rw [eq_false_of_ne_true hu] at h
    simp at h

theorem shorten_url_fail_state {d : String} {now : Int} {cands : Nat → String}
    {fuel : Nat} {req : ShortenRequest} {st st1 : Store} {o : ShortenOutcome}
    (h : shorten_url d now cands fuel req st = (st1, o))
    (hno : ∀ su code ea, o ≠ ShortenOutcome.ok su code ea) : st1 = st := by
  unfold shorten_url at h
  by_cases hu : pyTruthyStr req.url
  · rw [hu] at h
    simp only [Bool.not_true, Bool.false_eq_true, if_false] at h
    cases ht : parseTtlDays ((req.expires).getD "30d") with
    | none => rw [ht] at h; cases h; rfl
    | some days =>
      rw [ht] at h
      simp only [] at h
      by_cases hc : pyTruthyStr req.custom
      · rw [hc] at h
        simp only [if_true] at h
        by_cases hf : (findCode st ((req.custom).getD "")).isSome
        · rw [if_pos hf] at h; cases h; rfl
        · rw [if_neg hf] at h
          exact absurd (congrArg Prod.snd h).symm (by simpa using hno _ _ _)
      · rw [eq_false_of_ne_true hc] at h
        simp only [Bool.false_eq_true, if_false] at h
        cases hg : genLoop cands st 0 fuel with
        | none => rw [hg] at h; cases h; rfl
        | some c =>
          rw [hg] at h
          exact absurd (congrArg Prod.snd h).symm (by simpa using hno _ _ _)
  · rw [eq_false_of_ne_true hu] at h
    cases h; rfl

theorem mkLink_short_code (st : Store) (u c : String) (now : Int) (ea : Option Int) :
    (mkLink st u c now ea).short_code = c := rfl

theorem insertLink_unique {st : Store} {l : Link} (hu : codesUnique st)
    (hfn : findCode st l.short_code = none) : codesUnique (insertLink st l) := by
  unfold codesUnique insertLink
  rw [List.pairwise_append]
  refine ⟨hu, by simp, ?_⟩
  intro a ha b hb
  simp only [List.mem_singleton] at hb
  subst hb
  exact (findCodeL_eq_none.mp hfn) a ha

theorem shorten_url_preserves_unique {d : String} {now : Int}
    {cands : Nat → String} {fuel : Nat} {req : ShortenRequest} {st : Store}
    (hu : codesUnique st) :
    codesUnique (shorten_url d now cands fuel req st).1 := by
  cases hres : shorten_url d now cands fuel req st with
  | mk st1 o =>
    cases o with
    | ok su code ea =>
      obtain ⟨-, -, hfn, hst, -⟩ := shorten_url_ok_spec hres
      subst hst
      exact insertLink_unique hu hfn
    | urlRequired => rw [shorten_url_fail_state hres (by intro su c ea h; cases h)]; exact hu
    | conflict => rw [shorten_url_fail_state hres (by intro su c ea h; cases h)]; exact hu
    | storageError => rw [shorten_url_fail_state hres (by intro su c ea h; cases h)]; exact hu
    | exn => rw [shorten_url_fail_state hres (by intro su c ea h; cases h)]; exact hu
    | genExhausted => rw [shorten_url_fail_state hres (by intro su c ea h; cases h)]; exact hu

theorem mk_concat_ne_never (ds : List Char) : String.mk (ds ++ ['d']) ≠ "never" := by
  intro h
  have hdata : ds ++ ['d'] = ['n', 'e', 'v', 'e', 'r'] := congrArg String.data h
  have hlast := congrArg List.getLast? hdata
  rw [List.getLast?_concat] at hlast
  simp at hlast

theorem stripD_digits {ds : List Char} (hd : ∀ c ∈ ds, c.isDigit) :
    stripD (String.mk (ds ++ ['d'])) = String.mk ds := by
  unfold stripD
  congr 1
  rw [List.filter_append]
  have h1 : ds.filter (fun c => c != 'd') = ds := by
    rw [List.filter_eq_self]
    intro c hc
    have := hd c hc
    simp only [bne_iff_ne, ne_eq]
    intro hcd
    subst hcd
    simp at this
  have h2 : ['d'].filter (fun c => c != 'd') = [] := by decide
  rw [h1, h2, List.append_nil]

theorem pyInt_digits {ds : List Char} (hne : ds ≠ []) (hd : ∀ c ∈ ds, c.isDigit) :
    pyInt (String.mk ds) = some ((digitsVal ds : Int)) := by
  cases ds with
  | nil => exact absurd rfl hne
  | cons c rest =>
    have hc : c.isDigit := hd c (List.mem_cons_self c rest)
    have hcm : c ≠ '-' := by intro h; subst h; simp at hc
    have hcp : c ≠ '+' := by intro h; subst h; simp at hc
    rw [show pyInt (String.mk (c :: rest))
        = if c = '-' then (parseDigitsInt rest).map (fun n => -n)
          else if c = '+' then parseDigitsInt rest
          else parseDigitsInt (c :: rest) from rfl]
    rw [if_neg hcm, if_neg hcp]
    unfold parseDigitsInt
    rw [if_pos ⟨by simp, List.all_eq_true.mpr (fun l hl => hd l hl)⟩]

/-- Claim C2, counterexample.  The claim says every `"<N>d"` TTL with N a
non-negative integer yields `expires_at = now + N days`; but for `"0d"` the
code's `if days` truthiness test treats the parsed 0 as falsy and produces a
null `expires_at` (at `now = 0` the claim would require `some (some 0)`). -/
theorem C2_zero_day_counterexample :
    resolveTtl "0d" 0 = some none
    ∧ some (none : Option Int) ≠ some (some (0 : Int)) := by
  decide

/-- Claim C2, amended.  TTL resolution: `"never"` yields a null
`expires_at`; the default `"30d"` yields `now + 30` days; and a TTL of the
form `"<N>d"` (N a string of decimal digits) yields `now + N` days when
N is positive, but a null `expires_at` when N is zero (Python truthiness of
the parsed day count). -/
theorem C2_ttl_resolution (now : Int) :
    resolveTtl "never" now = some none
    ∧ resolveTtl "30d" now = some (some (now + 30))
    ∧ ∀ ds : List Char, ds ≠ [] → (∀ c ∈ ds, c.isDigit) →
        resolveTtl (String.mk (ds ++ ['d'])) now
          = some (if digitsVal ds = 0 then none
                  else some (now + (digitsVal ds : Int))) := by
  refine ⟨by simp [resolveTtl, parseTtlDays, ttlExpiresAt], ?_, ?_⟩
  · unfold resolveTtl
    rw [show parseTtlDays "30d" = some (some 30) from by decide]
    simp [ttlExpiresAt]
  · intro ds hne hd
    unfold resolveTtl parseTtlDays
    rw [if_neg (mk_concat_ne_never ds), stripD_digits hd, pyInt_digits hne hd]
    simp only [Option.map_map, Option.map_some']
    unfold ttlExpiresAt
    simp only [Function.comp_apply, Option.some.injEq]
    by_cases h0 : digitsVal ds = 0
    · simp [h0]
    · simp [h0, Nat.cast_eq_zero]

/-- Claim C6.  The visit-counter update in `resolve` is a read-modify-write
across two separate operations (the `SELECT` `resolveRead` and the `UPDATE`
`resolveWrite` whose parameter is the value read plus one), not an atomic
increment: interleaving two concurrent resolves of a non-expired code with
visit count 0 as read, read, write, write leaves the counter at 1, not 2 —
a lost update.  The second conjunct shows a single `resolve` is exactly this
read-write pair. -/
theorem C6_lost_update :
    visitCount demoStore "abc" = some 0
    ∧ redirect_to_original 0 "abc" demoStore
        = (resolveWrite demoStore "abc" 1, RedirectOutcome.ok "https://example.com")
    ∧ visitCount (lostUpdateRun demoStore "abc") "abc" = some 1
    ∧ visitCount (lostUpdateRun demoStore "abc") "abc" ≠ some 2 := by
  decide

/-- Claim C10.  For an `expires` value that is neither `"never"` nor
parseable after removing `'d'` characters (for example `"abc"`), `register`
raises an unhandled exception during TTL parsing, before the `try` block:
the outcome is `exn`, which is neither the `ValidationError` (400) nor the
handler's `StorageError` (500) result, and no row is inserted. -/
theorem C10_unparsed_ttl_exn (d : String) (now : Int) (cands : Nat → String)
    (fuel : Nat) (u cu : Option String) (st : Store)
    (hu : pyTruthyStr u = true) :
    shorten_url d now cands fuel ⟨u, cu, some "abc"⟩ st = (st, ShortenOutcome.exn)
    ∧ ShortenOutcome.exn ≠ ShortenOutcome.urlRequired
    ∧ ShortenOutcome.exn ≠ ShortenOutcome.storageError := by
  refine ⟨?_, by decide, by decide⟩
  have hp : parseTtlDays "abc" = none := by decide
  unfold shorten_url
  rw [show (ShortenRequest.mk u cu (some "abc")).url = u from rfl, hu]
  simp [hp]

/-- Claim C4.  For every stored link whose `expires_at` is set and strictly
before the current time, `resolve` fails with `ExpiredError` (410), the store
is unchanged (the row is not deleted and no counter is incremented), and
`stats` on the same code still returns the stored metadata. -/
theorem C4_expired_rejected_not_deleted (now : Int) (code : String) (st : Store)
    (l : Link) (e : Int) (hf : findCode st code = some l)
    (he : l.expires_at = some e) (hlt : e < now) :
    redirect_to_original now code st = (st, RedirectOutcome.expired)
    ∧ (get_stats code st).2
        = StatsOutcome.ok l.original_url l.created_at l.expires_at l.visit_count := by
  have hex : isExpired l.expires_at now = true := by rw [he]; simp [isExpired, hlt]
  constructor
  · unfold redirect_to_original resolveRead
    simp [hf, hex]
  · unfold get_stats
    rw [hf]

/-- Claim C7.  A request whose `url` is empty or absent fails with
`ValidationError` (400) and leaves the store unchanged; more generally every
failed registration (any non-`ok` outcome) leaves the store exactly as it
was — zero new rows. -/
theorem C7_validation_and_no_partial_writes (d : String) (now : Int)
    (cands : Nat → String) (fuel : Nat) (req : ShortenRequest) (st : Store) :
    (pyTruthyStr req.url = false →
      shorten_url d now cands fuel req st = (st, ShortenOutcome.urlRequired))
    ∧ (∀ st1 o, shorten_url d now cands fuel req st = (st1, o) →
        (∀ su code ea, o ≠ ShortenOutcome.ok su code ea) → st1 = st) := by
  constructor
  · intro hfu
    unfold shorten_url
    rw [hfu]
    simp
  · intro st1 o h hno
    exact shorten_url_fail_state h hno

/-- Claim C9.  `stats` is a pure read: it returns the store unchanged,
repeated calls return the same result, it reports the stored metadata of the
first matching row without evaluating expiration (`get_stats` takes no `now`
parameter at all, so an expired code is reported, not rejected), and it never
mutates `visit_count`. -/
theorem C9_stats_pure_read (code : String) (st : Store) :
    (get_stats code st).1 = st
    ∧ (get_stats code ((get_stats code st).1)).2 = (get_stats code st).2
    ∧ (∀ l, findCode st code = some l →
        (get_stats code st).2
          = StatsOutcome.ok l.original_url l.created_at l.expires_at l.visit_count)
    ∧ visitCount (get_stats code st).1 code = visitCount st code := by
  have h1 : (get_stats code st).1 = st := by
    unfold get_stats
    cases findCode st code <;> rfl
  refine ⟨h1, by rw [h1], ?_, by rw [h1]⟩
  intro l hf
  unfold get_stats
  rw [hf]

/-- Claim C1.  For every valid registration (a present non-empty URL, a
successful `register`, and a TTL that has not already passed, which is what
"immediately following" guarantees for the non-negative day counts of the
`expires` grammar), resolving the returned code yields the original URL, and
`stats` after that one resolve reports a `visit_count` of 1. -/
theorem C1_register_resolve_stats {d : String} {now : Int} {cands : Nat → String}
    {fuel : Nat} {req : ShortenRequest} {st st1 : Store} {u su code : String}
    {ea : Option Int}
    (hurl : req.url = some u)
    (hs : shorten_url d now cands fuel req st = (st1, ShortenOutcome.ok su code ea))
    (hexp : ∀ e, ea = some e → ¬ e < now) :
    redirect_to_original now code st1
      = (resolveWrite st1 code 1, RedirectOutcome.ok u)
    ∧ (get_stats code (resolveWrite st1 code 1)).2 = StatsOutcome.ok u now ea 1
    ∧ visitCount (resolveWrite st1 code 1) code = some 1 := by
  obtain ⟨hut, -, hfn, hst, -⟩ := shorten_url_ok_spec hs
  have hgd : (req.url).getD "" = u := by rw [hurl]; rfl
  rw [hgd] at hst
  have hL : mkLink st u code now ea
      = ⟨st.nextId, u, code, now, ea, 0⟩ := rfl
  have hfind1 : findCode st1 code = some ⟨st.nextId, u, code, now, ea, 0⟩ := by
    rw [hst]
    unfold findCode insertLink
    rw [show (⟨st.links ++ [mkLink st u code now ea], st.nextId + 1⟩ : Store).links
        = st.links ++ [mkLink st u code now ea] from rfl]
    rw [findCodeL_append [mkLink st u code now ea] hfn]
    rw [findCodeL_cons]
    simp [mkLink]
  have hnex : isExpired ea now = false := by
    cases ea with
    | none => rfl
    | some e =>
      have := hexp e rfl
      simp [isExpired, this]
  have hred : redirect_to_original now code st1
      = (resolveWrite st1 code 1, RedirectOutcome.ok u) := by
    unfold redirect_to_original resolveRead
    rw [hfind1]
    simp [hnex]
  refine ⟨hred, ?_, ?_⟩
  · have hfind2 : findCode (resolveWrite st1 code 1) code
        = some ⟨st.nextId, u, code, now, ea, 1⟩ := by
      rw [findCode_resolveWrite_same, hfind1]
      rfl
    unfold get_stats
    rw [hfind2]
  · unfold visitCount
    rw [findCode_resolveWrite_same, hfind1]
    rfl

/-- Claim C3.  Registering a custom code already held by an existing link
fails with `ConflictError` (409) and inserts no row (the store is returned
unchanged); every registration preserves uniqueness of short codes; and an
unused custom code is stored verbatim. -/
theorem C3_custom_code_conflict (d : String) (now : Int) (cands : Nat → String)
    (fuel : Nat) (u c : String) (ex : Option String) (st : Store)
    (hu : u ≠ "") (hc : c ≠ "") :
    ((∃ days, parseTtlDays (ex.getD "30d") = some days) →
      (findCode st c).isSome = true →
      shorten_url d now cands fuel ⟨some u, some c, ex⟩ st
        = (st, ShortenOutcome.conflict))
    ∧ (∀ req : ShortenRequest, codesUnique st →
        codesUnique (shorten_url d now cands fuel req st).1)
    ∧ (∀ days, parseTtlDays (ex.getD "30d") = some days →
        findCode st c = none →
        shorten_url d now cands fuel ⟨some u, some c, ex⟩ st
          = (insertLink st (mkLink st u c now (ttlExpiresAt days now)),
             ShortenOutcome.ok ("https://" ++ d ++ "/" ++ c) c
               (ttlExpiresAt days now))) := by
  have hut : pyTruthyStr (some u) = true := by simp [pyTruthyStr, hu]
  have hct : pyTruthyStr (some c) = true := by simp [pyTruthyStr, hc]
  refine ⟨?_, fun req huq => shorten_url_preserves_unique huq, ?_⟩
  · rintro ⟨days, hdays⟩ hfs
    unfold shorten_url
    rw [show (ShortenRequest.mk (some u) (some c) ex).url = some u from rfl, hut]
    rw [show (ShortenRequest.mk (some u) (some c) ex).expires = ex from rfl, hdays]
    rw [show (ShortenRequest.mk (some u) (some c) ex).custom = some c from rfl, hct]
    simp [hfs, Option.getD]
  · intro days hdays hfn
    unfold shorten_url
    rw [show (ShortenRequest.mk (some u) (some c) ex).url = some u from rfl, hut]
    rw [show (ShortenRequest.mk (some u) (some c) ex).expires = ex from rfl, hdays]
    rw [show (ShortenRequest.mk (some u) (some c) ex).custom = some c from rfl, hct]
    simp [hfn, Option.getD]

/-- Claim C5.  A successful resolve of a non-expired link returns its
`original_url` and increments that link's `visit_count` by exactly 1,
leaving every other code's count unchanged; a resolve that ends in
`NotFoundError` or `ExpiredError` leaves the store untouched, so the counter
only increases and only through successful resolutions. -/
theorem C5_resolve_increment_exactly_one (now : Int) (code : String) (st : Store) :
    (∀ l, findCode st code = some l → isExpired l.expires_at now = false →
      redirect_to_original now code st
        = (resolveWrite st code (l.visit_count + 1), RedirectOutcome.ok l.original_url)
      ∧ visitCount (resolveWrite st code (l.visit_count + 1)) code
          = some (l.visit_count + 1)
      ∧ (∀ c, c ≠ code →
          visitCount (resolveWrite st code (l.visit_count + 1)) c = visitCount st c))
    ∧ (∀ st2 o, redirect_to_original now code st = (st2, o) →
        (∀ u, o ≠ RedirectOutcome.ok u) → st2 = st) := by
  constructor
  · intro l hf hex
    refine ⟨?_, ?_, ?_⟩
    · unfold redirect_to_original resolveRead
      simp [hf, hex]
    · unfold visitCount
      rw [findCode_resolveWrite_same, hf]
      rfl
    · intro c hc
      unfold visitCount
      rw [findCode_resolveWrite_other st (l.visit_count + 1) hc]
  · intro st2 o h hno
    unfold redirect_to_original at h
    cases hf : resolveRead st code with
    | none => rw [hf] at h; cases h; rfl
    | some l =>
      rw [hf] at h
      have h2 : (if isExpired l.expires_at now = true then (st, RedirectOutcome.expired)
          else (resolveWrite st code (l.visit_count + 1),
                RedirectOutcome.ok l.original_url)) = (st2, o) := h
      by_cases hex : isExpired l.expires_at now
      · rw [if_pos hex] at h2; cases h2; rfl
      · rw [if_neg hex] at h2
        exact absurd (congrArg Prod.snd h2).symm (by simpa using hno l.original_url)

/-- Claim C8, counterexample.  The claim says every stored `short_code` is
alphanumeric, caller-supplied ones included; but `shorten_url` performs no
character validation on custom codes: registering custom code `"!!!"`
succeeds and stores `"!!!"`, whose characters are not in the 62-symbol
alphanumeric set. -/
theorem C8_nonalnum_custom_counterexample :
    shorten_url "d" 0 (fun _ => "") 1 ⟨some "u", some "!!!", some "never"⟩ ⟨[], 0⟩
      = (⟨[⟨0, "u", "!!!", 0, none, 0⟩], 1⟩,
         ShortenOutcome.ok "https://d/!!!" "!!!" none)
    ∧ findCode ⟨[⟨0, "u", "!!!", 0, none, 0⟩], 1⟩ "!!!"
        = some ⟨0, "u", "!!!", 0, none, 0⟩
    ∧ ¬ (∀ ch ∈ ("!!!" : String).data, ch ∈ codeChars) := by
  refine ⟨by decide, by decide, ?_⟩
  intro h
  have := h '!' (by decide)
  revert this
  decide

/-- Claim C8, amended.  The Code Generator produces a string of exactly
`length` characters drawn from the 62-symbol set {A-Z, a-z, 0-9}, and when no
custom code is supplied the stored code is one of these generated candidates
(length 6 by default); caller-supplied custom codes, however, are stored
verbatim without character validation. -/
theorem C8_generated_codes_alphanumeric (choice : Nat → Fin codeChars.length)
    (len : Nat) (picks : Nat → Nat → Fin codeChars.length) (d : String)
    (now : Int) (fuel : Nat) (req : ShortenRequest) (st st1 : Store)
    (su code : String) (ea : Option Int) :
    (generate_short_code choice len).length = len
    ∧ (∀ ch ∈ (generate_short_code choice len).data, ch ∈ codeChars)
    ∧ (pyTruthyStr req.custom = false →
        shorten_url d now (fun i => generate_short_code (picks i) 6) fuel req st
          = (st1, ShortenOutcome.ok su code ea) →
        code.length = 6 ∧ ∀ ch ∈ code.data, ch ∈ codeChars) := by
  have hlen : ∀ (ch : Nat → Fin codeChars.length) (n : Nat),
      (generate_short_code ch n).length = n := by
    intro ch n
    unfold generate_short_code
    simp [String.length]
  have hmem : ∀ (f : Nat → Fin codeChars.length) (n : Nat),
      ∀ ch ∈ (generate_short_code f n).data, ch ∈ codeChars := by
    intro f n ch hch
    unfold generate_short_code at hch
    rw [show (String.mk ((List.range n).map (fun i => codeChars.get (f i)))).data
        = (List.range n).map (fun i => codeChars.get (f i)) from rfl] at hch
    rw [List.mem_map] at hch
    obtain ⟨i, -, hi⟩ := hch
    rw [← hi]
    exact List.get_mem codeChars _ _
  refine ⟨hlen choice len, hmem choice len, ?_⟩
  intro hcf hs
  obtain ⟨-, -, -, -, -, -, hgen⟩ := shorten_url_ok_spec hs
  obtain ⟨j, hj⟩ := hgen hcf
  subst hj
  exact ⟨hlen _ 6, hmem _ 6⟩

/-- Claim C1.  For every valid registration (a present non-empty URL, a
successful `register`, and a TTL that has not already passed, which is what
"immediately following" guarantees for the non-negative day counts of the
`expires` grammar), resolving the returned code yields the original URL, and
`stats` after that one resolve reports a `visit_count` of 1. -/
theorem C1_register_resolve_stats_witness :
    redirect_to_original 0 "abc123"
        ⟨[⟨0, "https://example.com", "abc123", 0, some 7, 0⟩], 1⟩
      = (resolveWrite ⟨[⟨0, "https://example.com", "abc123", 0, some 7, 0⟩], 1⟩
           "abc123" 1,
         RedirectOutcome.ok "https://example.com")
    ∧ (get_stats "abc123"
        (resolveWrite ⟨[⟨0, "https://example.com", "abc123", 0, some 7, 0⟩], 1⟩
          "abc123" 1)).2
        = StatsOutcome.ok "https://example.com" 0 (some 7) 1
    ∧ visitCount
        (resolveWrite ⟨[⟨0, "https://example.com", "abc123", 0, some 7, 0⟩], 1⟩
          "abc123" 1) "abc123" = some 1 :=
  @C1_register_resolve_stats "sho.rt" 0 (fun _ => "abc123") 1
    ⟨some "https://example.com", none, some "7d"⟩ ⟨[], 0⟩
    ⟨[⟨0, "https://example.com", "abc123", 0, some 7, 0⟩], 1⟩
    "https://example.com" "https://sho.rt/abc123" "abc123" (some 7)
    rfl (by decide) (fun e he => by injection he with h; rw [← h]; decide)

/-- Claim C2, amended.  TTL resolution: `"never"` yields a null
`expires_at`; the default `"30d"` yields `now + 30` days; and a TTL of the
form `"<N>d"` (N a string of decimal digits) yields `now + N` days when
N is positive, but a null `expires_at` when N is zero (Python truthiness of
the parsed day count). -/
theorem C2_ttl_resolution_witness :
    resolveTtl (String.mk (['7'] ++ ['d'])) 5
      = some (if digitsVal ['7'] = 0 then none
              else some (5 + (digitsVal ['7'] : Int))) :=
  (C2_ttl_resolution 5).2.2 ['7'] (by decide) (by decide)

/-- Claim C3.  Registering a custom code already held by an existing link
fails with `ConflictError` (409) and inserts no row (the store is returned
unchanged); every registration preserves uniqueness of short codes; and an
unused custom code is stored verbatim. -/
theorem C3_custom_code_conflict_witness :
    shorten_url "d" 0 (fun _ => "") 1
        ⟨some "https://a.com", some "promo", none⟩
        ⟨[⟨0, "https://b.com", "promo", 0, none, 0⟩], 1⟩
      = (⟨[⟨0, "https://b.com", "promo", 0, none, 0⟩], 1⟩,
         ShortenOutcome.conflict) :=
  (C3_custom_code_conflict "d" 0 (fun _ => "") 1 "https://a.com" "promo" none
    ⟨[⟨0, "https://b.com", "promo", 0, none, 0⟩], 1⟩
    (by decide) (by decide)).1 ⟨some 30, by decide⟩ (by decide)

/-- Claim C4.  For every stored link whose `expires_at` is set and strictly
before the current time, `resolve` fails with `ExpiredError` (410), the store
is unchanged (the row is not deleted and no counter is incremented), and
`stats` on the same code still returns the stored metadata. -/
theorem C4_expired_rejected_not_deleted_witness :
    redirect_to_original 5 "x" ⟨[⟨0, "u", "x", 0, some 3, 2⟩], 1⟩
      = (⟨[⟨0, "u", "x", 0, some 3, 2⟩], 1⟩, RedirectOutcome.expired)
    ∧ (get_stats "x" ⟨[⟨0, "u", "x", 0, some 3, 2⟩], 1⟩).2
        = StatsOutcome.ok "u" 0 (some 3) 2 :=
  C4_expired_rejected_not_deleted 5 "x" ⟨[⟨0, "u", "x", 0, some 3, 2⟩], 1⟩
    ⟨0, "u", "x", 0, some 3, 2⟩ 3 (by decide) rfl (by decide)

/-- Claim C5.  A successful resolve of a non-expired link returns its
`original_url` and increments that link's `visit_count` by exactly 1,
leaving every other code's count unchanged; a resolve that ends in
`NotFoundError` or `ExpiredError` leaves the store untouched, so the counter
only increases and only through successful resolutions. -/
theorem C5_resolve_increment_exactly_one_witness :
    redirect_to_original 0 "x" ⟨[⟨0, "u", "x", 0, none, 4⟩], 1⟩
      = (resolveWrite ⟨[⟨0, "u", "x", 0, none, 4⟩], 1⟩ "x" 5,
         RedirectOutcome.ok "u") :=
  ((C5_resolve_increment_exactly_one 0 "x" ⟨[⟨0, "u", "x", 0, none, 4⟩], 1⟩).1
    ⟨0, "u", "x", 0, none, 4⟩ (by decide) rfl).1

/-- Claim C7.  A request whose `url` is empty or absent fails with
`ValidationError` (400) and leaves the store unchanged; more generally every
failed registration (any non-`ok` outcome) leaves the store exactly as it
was — zero new rows. -/
theorem C7_validation_and_no_partial_writes_witness :
    shorten_url "d" 0 (fun _ => "") 1 ⟨none, none, none⟩ ⟨[], 0⟩
      = (⟨[], 0⟩, ShortenOutcome.urlRequired) :=
  (C7_validation_and_no_partial_writes "d" 0 (fun _ => "") 1
    ⟨none, none, none⟩ ⟨[], 0⟩).1 rfl

/-- Claim C8, amended.  The Code Generator produces a string of exactly
`length` characters drawn from the 62-symbol set {A-Z, a-z, 0-9}, and when no
custom code is supplied the stored code is one of these generated candidates
(length 6 by default); caller-supplied custom codes, however, are stored
verbatim without character validation. -/
theorem C8_generated_codes_alphanumeric_witness :
    ("aaaaaa" : String).length = 6 :=
  ((C8_generated_codes_alphanumeric (fun _ => ⟨0, by decide⟩) 2
      (fun _ _ => ⟨0, by decide⟩) "d" 0 1 ⟨some "u", none, some "never"⟩
      ⟨[], 0⟩ ⟨[⟨0, "u", "aaaaaa", 0, none, 0⟩], 1⟩
      "https://d/aaaaaa" "aaaaaa" none).2.2 rfl (by decide)).1

/-- Claim C9.  `stats` is a pure read: it returns the store unchanged,
repeated calls return the same result, it reports the stored metadata of the
first matching row without evaluating expiration (`get_stats` takes no `now`
parameter at all, so an expired code is reported, not rejected), and it never
mutates `visit_count`. -/
theorem C9_stats_pure_read_witness :
    (get_stats "x" ⟨[⟨0, "u", "x", 0, some 3, 7⟩], 1⟩).2
      = StatsOutcome.ok "u" 0 (some 3) 7 :=
  (C9_stats_pure_read "x" ⟨[⟨0, "u", "x", 0, some 3, 7⟩], 1⟩).2.2.1
    ⟨0, "u", "x", 0, some 3, 7⟩ (by decide)

/-- Claim C10.  For an `expires` value that is neither `"never"` nor
parseable after removing `'d'` characters (for example `"abc"`), `register`
raises an unhandled exception during TTL parsing, before the `try` block:
the outcome is `exn`, which is neither the `ValidationError` (400) nor the
handler's `StorageError` (500) result, and no row is inserted. -/
theorem C10_unparsed_ttl_exn_witness :
    shorten_url "d" 0 (fun _ => "") 1 ⟨some "x", none, some "abc"⟩ ⟨[], 0⟩
      = (⟨[], 0⟩, ShortenOutcome.exn)
    ∧ ShortenOutcome.exn ≠ ShortenOutcome.urlRequired
    ∧ ShortenOutcome.exn ≠ ShortenOutcome.storageError :=
  C10_unparsed_ttl_exn "d" 0 (fun _ => "") 1 (some "x") none ⟨[], 0⟩ (by decide)
